import Mathlib

/-!
Shallow embedding of the fscli introspection engine
(src/fscli/file_system.py and src/fscli/pretty_print.py).

Python floats are modelled exactly: every arithmetic step the code
performs on the inputs relevant here (division of integer byte counts by
1024, division for percentages) is exact in binary floating point over
the ranges exercised, so an exact rational model agrees with the float
semantics at every point used in the theorems below.  Rationals are
represented by the unnormalized fraction type Frac (numerator and
denominator, denominator kept positive by construction at every use
site); this representation is chosen over Mathlib's Rat because every
operation on it is a structural Int computation the kernel can evaluate.
Python string formatting with a fixed number of decimal places rounds to
nearest with ties to even; roundHalfEven below implements that
convention.
-/

namespace Fscli

/-- An exact rational num / den.  All values built by this development
have den > 0. -/
structure Frac where
  num : ℤ
  den : ℤ
deriving DecidableEq, Repr

/-- Embed an integer (e.g. a byte count handed to the formatter). -/
def Frac.ofInt (n : ℤ) : Frac := ⟨n, 1⟩

/-- Exact value of dividing by 1024 (the float division size /= 1024 is
exact for the values reached here). -/
def Frac.div1024 (q : Frac) : Frac := ⟨q.num, q.den * 1024⟩

/-- Exact value of multiplying by 10 ^ d (used when formatting to d
decimal places). -/
def Frac.mulPow10 (q : Frac) (d : ℕ) : Frac := ⟨q.num * 10 ^ d, q.den⟩

/-- Value comparison n ≤ q for integer n, valid whenever q.den > 0. -/
def Frac.intLe (n : ℤ) (q : Frac) : Prop := n * q.den ≤ q.num

instance (n : ℤ) (q : Frac) : Decidable (Frac.intLe n q) := Int.decLe _ _

/-- Round the value of q to the nearest integer, ties to the even
integer (the rounding used by Python float formatting); valid whenever
q.den > 0. -/
def roundHalfEven (q : Frac) : ℤ :=
  let f : ℤ := Int.fdiv q.num q.den
  let r : ℤ := q.num - f * q.den
  if 2 * r < q.den then f
  else if q.den < 2 * r then f + 1
  else if f % 2 = 0 then f else f + 1

/-- Left-pad a list of characters with the character z up to length d. -/
def padLeft (l : List Char) (d : ℕ) (z : Char) : List Char :=
  List.replicate (d - l.length) z ++ l

/-- Model of the Python format specification .df applied to a float
value: round to d decimal places, ties to even, and print with exactly d
digits after the decimal point (no decimal point when d = 0). -/
def formatFixed (q : Frac) (d : ℕ) : String :=
  let scaled : ℤ := roundHalfEven (q.mulPow10 d)
  let sign : String := if scaled < 0 then "-" else ""
  let a : ℕ := scaled.natAbs
  if d = 0 then sign ++ String.mk (Nat.toDigits 10 a)
  else
    sign ++ String.mk (Nat.toDigits 10 (a / 10 ^ d)) ++ "." ++
      String.mk (padLeft (Nat.toDigits 10 (a % 10 ^ d)) d '0')

/-- The unit ladder of FileSystem._human_readable_size (and of
PrettyPrinter._format_size, which uses the same list). -/
def sizeUnits : List String := ["B", "KB", "MB", "GB", "TB", "PB"]

/-- The while loop of FileSystem._human_readable_size:
while size >= 1024 and unit_index < len(units) - 1: size /= 1024;
unit_index += 1.  The loop guard unit_index < 5 bounds the iteration
count by 5, so running it with structural fuel 5 from unit_index = 0 is
exactly the loop. -/
def sizeLoop : ℕ → Frac → ℕ → Frac × ℕ
  | 0, size, unitIndex => (size, unitIndex)
  | fuel + 1, size, unitIndex =>
    if Frac.intLe 1024 size ∧ unitIndex < 5 then
      sizeLoop fuel size.div1024 (unitIndex + 1)
    else (size, unitIndex)

/-- FileSystem._human_readable_size (src/fscli/file_system.py lines
31-50).  Returns the literal string 0 B for a zero size, otherwise
divides by 1024 up to five times and formats with decimalPlaces digits
followed by the reached unit. -/
def humanReadableSize (size : Frac) (decimalPlaces : ℕ) : String :=
  if size.num = 0 then "0 B"
  else
    let p := sizeLoop 5 size 0
    formatFixed p.1 decimalPlaces ++ " " ++ sizeUnits.getD p.2 ""

/-- FileSystem._human_readable_size at its default decimal_places = 2,
the form every caller in the repository uses. -/
def humanReadableSizeD (size : Frac) : String := humanReadableSize size 2

/-- PrettyPrinter._format_size (src/fscli/pretty_print.py lines 90-108):
returns N/A exactly when the input is None or the integer -1, otherwise
runs the same 1024 ladder as _human_readable_size but with no special
case for zero.  None is modelled as Option.none. -/
def formatSize : Option Frac → String
  | none => "N/A"
  | some size =>
    if size.num = -1 * size.den then "N/A"
    else
      let p := sizeLoop 5 size 0
      formatFixed p.1 2 ++ " " ++ sizeUnits.getD p.2 ""

example : humanReadableSizeD (Frac.ofInt 0) = "0 B" := by decide
example : humanReadableSizeD (Frac.ofInt 1024) = "1.00 KB" := by decide
example : humanReadableSizeD (Frac.ofInt 1536) = "1.50 KB" := by decide
example : humanReadableSizeD (Frac.ofInt (-1)) = "-1.00 B" := by decide
example : humanReadableSizeD (Frac.ofInt (1024 ^ 5)) = "1.00 PB" := by decide
example : humanReadableSizeD (Frac.ofInt (1024 ^ 6)) = "1024.00 PB" := by decide
example : formatSize (some (Frac.ofInt 0)) = "0.00 B" := by decide
example : formatSize (some (Frac.ofInt (-1))) = "N/A" := by decide
example : formatSize none = "N/A" := by decide
example : formatSize (some (Frac.ofInt (-2))) = "-2.00 B" := by decide

/-! FileSystem.get_file_permissions (src/fscli/file_system.py lines
616-681).  The permission decoding is a pure function of the raw
st_mode integer (plus the owner and group ids passed through), embedded
here over that integer. -/

/-- Python builtin oct: the prefix 0o followed by the minimal base-8
digit string of a natural number. -/
def pyOct (n : ℕ) : String := "0o" ++ String.mk (Nat.toDigits 8 n)

/-- The octal field of get_file_permissions: oct(mode & 0o777). -/
def octalPerm (mode : ℕ) : String := pyOct (mode &&& 0o777)

/-- stat.S_ISDIR: the file-format bits of the mode equal S_IFDIR. -/
def S_ISDIR (mode : ℕ) : Bool := mode &&& 0o170000 == 0o040000

/-- stat.S_ISLNK: the file-format bits of the mode equal S_IFLNK. -/
def S_ISLNK (mode : ℕ) : Bool := mode &&& 0o170000 == 0o120000

/-- The symbolic field of get_file_permissions: a type character then
nine rwx characters, built in the order of the source. -/
def symbolicPerm (mode : ℕ) : String :=
  (if S_ISDIR mode then "d" else if S_ISLNK mode then "l" else "-")
    ++ (if mode &&& 0o400 ≠ 0 then "r" else "-")
    ++ (if mode &&& 0o200 ≠ 0 then "w" else "-")
    ++ (if mode &&& 0o100 ≠ 0 then "x" else "-")
    ++ (if mode &&& 0o40 ≠ 0 then "r" else "-")
    ++ (if mode &&& 0o20 ≠ 0 then "w" else "-")
    ++ (if mode &&& 0o10 ≠ 0 then "x" else "-")
    ++ (if mode &&& 0o4 ≠ 0 then "r" else "-")
    ++ (if mode &&& 0o2 ≠ 0 then "w" else "-")
    ++ (if mode &&& 0o1 ≠ 0 then "x" else "-")

/-- The dictionary returned by get_file_permissions for an existing
path, as a function of the raw mode and the stat owner and group ids
(the path field, an absolute-path echo of the input, is omitted). -/
structure PermissionSet where
  octal : String
  symbolic : String
  setuid : Bool
  setgid : Bool
  sticky : Bool
  owner_id : ℕ
  group_id : ℕ
deriving DecidableEq, Repr

/-- FileSystem.get_file_permissions on the stat results of an existing
path. -/
def getFilePermissions (mode uid gid : ℕ) : PermissionSet where
  octal := octalPerm mode
  symbolic := symbolicPerm mode
  setuid := mode &&& 0o4000 != 0
  setgid := mode &&& 0o2000 != 0
  sticky := mode &&& 0o1000 != 0
  owner_id := uid
  group_id := gid

/-- Numeric value of one octal digit character. -/
def octCharVal (c : Char) : ℕ := c.toNat - 48

/-- Numeric value of a base-8 digit string. -/
def octStringVal (l : List Char) : ℕ :=
  l.foldl (fun a c => a * 8 + octCharVal c) 0

example : octalPerm 0o100755 = "0o755" := by decide
example : octalPerm 0o100007 = "0o7" := by decide
example : symbolicPerm 0o100755 = "-rwxr-xr-x" := by decide
example : symbolicPerm 0o100644 = "-rw-r--r--" := by decide
example : symbolicPerm 0o104755 = "-rwxr-xr-x" := by decide
example : symbolicPerm 0o040755 = "drwxr-xr-x" := by decide
example : (getFilePermissions 0o104755 0 0).setuid = true := by decide

/-! FileSystem.get_drive_space (src/fscli/file_system.py lines 318-344)
and the Unix branch of FileSystem.get_disk_partitions (lines 424-466).
shutil.disk_usage is the environment; it is modelled as an Option
SpaceInfo (none when the call raises).  get_drive_space returns the
empty dictionary on any exception, modelled as Option.none. -/

/-- The (total, used, free) triple produced by shutil.disk_usage. -/
structure SpaceInfo where
  total : ℕ
  used : ℕ
  free : ℕ
deriving DecidableEq, Repr

/-- Exact product of two rational values. -/
def Frac.mul (q r : Frac) : Frac := ⟨q.num * r.num, q.den * r.den⟩

/-- Exact quotient of two rational values (the divisors used in this
development are positive integers). -/
def Frac.div (q r : Frac) : Frac := ⟨q.num * r.den, q.den * r.num⟩

/-- Python round(x, 2): round to two decimal places, ties to even. -/
def roundTo2 (q : Frac) : Frac := ⟨roundHalfEven (q.mulPow10 2), 100⟩

/-- The dictionary returned by get_drive_space on success. -/
structure DriveSpace where
  total : ℕ
  total_human : String
  used : ℕ
  used_human : String
  free : ℕ
  free_human : String
  used_percent : Frac
deriving DecidableEq, Repr

/-- FileSystem.get_drive_space: on a disk_usage failure, or on the
ZeroDivisionError raised by (used / total) * 100 when total = 0, the
exception handler returns the empty dictionary (none); otherwise the
populated dictionary. -/
def getDriveSpace (du : Option SpaceInfo) : Option DriveSpace :=
  match du with
  | none => none
  | some s =>
    if s.total = 0 then none
    else some
      { total := s.total
        total_human := humanReadableSizeD (.ofInt s.total)
        used := s.used
        used_human := humanReadableSizeD (.ofInt s.used)
        free := s.free
        free_human := humanReadableSizeD (.ofInt s.free)
        used_percent :=
          roundTo2 (((Frac.ofInt s.used).div (.ofInt s.total)).mul (.ofInt 100)) }

/-- Python str.split() with no argument: split on runs of whitespace,
dropping empty pieces.  The characters relevant to single mount-table
lines are the space and the tab. -/
def splitWSAux : List Char → List Char → List String
  | [], [] => []
  | [], acc => [String.mk acc.reverse]
  | c :: cs, acc =>
    if c == ' ' || c == '\t' then
      if acc.isEmpty then splitWSAux cs [] else String.mk acc.reverse :: splitWSAux cs []
    else splitWSAux cs (c :: acc)

/-- Python line.split() for one mount-table line. -/
def pySplit (s : String) : List String := splitWSAux s.data []

/-- Python s.strip(chars) for the call parts[5].strip of the two
parenthesis characters: remove every leading and trailing character
belonging to the set. -/
def pyStripParens (s : String) : String :=
  String.mk (((s.data.dropWhile fun c => c == '(' || c == ')').reverse.dropWhile
    fun c => c == '(' || c == ')').reverse)

/-- Python device.startswith(tuple): true when any of the strings is a
prefix of the device name. -/
def pyStartsWithAny (s : String) (ps : List String) : Bool :=
  ps.any fun p => p.data.isPrefixOf s.data

/-- The denylist test of get_disk_partitions line 440: pseudo
filesystem types, and device-name prefixes of virtual devices. -/
def isVirtualEntry (device fstype : String) : Bool :=
  ["proc", "sysfs", "devpts", "devtmpfs", "tmpfs"].contains fstype ||
    pyStartsWithAny device ["none", "/dev/loop", "udev"]

/-- One entry of the list returned by get_disk_partitions (Unix
branch). -/
structure PartInfo where
  device : String
  mountpoint : String
  fstype : String
  opts : String
  total_space : ℕ
  free_space : ℕ
  used_space : ℕ
  used_percent : Frac
deriving DecidableEq, Repr

/-- The part_info dictionary of lines 450-459: space fields come from
space_info.get with default 0, so an empty get_drive_space result
yields zero fields. -/
def mkPartInfo (device mountpoint fstype opts : String)
    (space : Option DriveSpace) : PartInfo where
  device := device
  mountpoint := mountpoint
  fstype := fstype
  opts := opts
  total_space := (space.map (·.total)).getD 0
  free_space := (space.map (·.free)).getD 0
  used_space := (space.map (·.used)).getD 0
  used_percent := (space.map (·.used_percent)).getD (Frac.ofInt 0)

/-- The line loop of the Unix branch of get_disk_partitions.  probe
models shutil.disk_usage per mount point.  A line with fewer than 5
whitespace fields fails the len(parts) >= 5 guard and is skipped.  A
line with exactly 5 fields passes the guard but the read of parts[5]
raises IndexError; that exception is only caught by the handler wrapped
around the whole loop, so the loop stops and the partitions collected
so far are returned: this is modelled by the empty-list result of the
5-field branch, appended after the entries already emitted. -/
def enumerateMounts (probe : String → Option SpaceInfo) (allPartitions : Bool) :
    List String → List PartInfo
  | [] => []
  | line :: rest =>
    let parts := pySplit line
    if 5 ≤ parts.length then
      if 6 ≤ parts.length then
        let device := parts.getD 0 ""
        let mountpoint := parts.getD 2 ""
        let fstype := parts.getD 4 ""
        let opts := pyStripParens (parts.getD 5 "")
        if !allPartitions && isVirtualEntry device fstype then
          enumerateMounts probe allPartitions rest
        else
          mkPartInfo device mountpoint fstype opts (getDriveSpace (probe mountpoint))
            :: enumerateMounts probe allPartitions rest
      else []
    else enumerateMounts probe allPartitions rest

/-- FileSystem.get_disk_partitions, Unix branch, as a function of the
splitlines of the mount command output and of the disk_usage probe. -/
def getDiskPartitions (probe : String → Option SpaceInfo) (allPartitions : Bool)
    (mountLines : List String) : List PartInfo :=
  enumerateMounts probe allPartitions mountLines

example :
    getDiskPartitions (fun _ => none) true ["/dev/sda1 on / type ext4 (rw)"] =
      [{ device := "/dev/sda1", mountpoint := "/", fstype := "ext4", opts := "rw",
         total_space := 0, free_space := 0, used_space := 0,
         used_percent := Frac.ofInt 0 }] := by decide

example :
    getDiskPartitions (fun _ => none) true
      ["a b c d e", "/dev/sda1 on / type ext4 (rw)"] = [] := by decide

example :
    getDiskPartitions (fun _ => none) false
      ["proc on /proc type proc (rw)", "/dev/sda1 on / type ext4 (rw)"] =
      [{ device := "/dev/sda1", mountpoint := "/", fstype := "ext4", opts := "rw",
         total_space := 0, free_space := 0, used_space := 0,
         used_percent := Frac.ofInt 0 }] := by decide

/-! FileSystem.get_filesystem_stats (src/fscli/file_system.py lines
471-549), statvfs branch, as a function of the raw os.statvfs sample
(the path echo field is omitted). -/

/-- The raw os.statvfs counters. -/
structure StatVFS where
  f_bsize : ℕ
  f_frsize : ℕ
  f_blocks : ℕ
  f_bfree : ℕ
  f_bavail : ℕ
  f_files : ℕ
  f_ffree : ℕ
  f_favail : ℕ
  f_fsid : ℕ
  f_flag : ℕ
  f_namemax : ℕ
deriving DecidableEq, Repr

/-- The filesystem_stats sub-dictionary. -/
structure FsRawStats where
  block_size : ℕ
  fragment_size : ℕ
  total_blocks : ℕ
  free_blocks : ℕ
  available_blocks : ℕ
  total_inodes : ℕ
  free_inodes : ℕ
  available_inodes : ℕ
  filesystem_id : ℕ
  mount_flags : ℕ
  maximum_filename_length : ℕ
deriving DecidableEq, Repr

/-- The space_usage sub-dictionary.  used_size is an integer that the
Python subtraction would make negative if free exceeded total, hence ℤ. -/
structure SpaceUsage where
  total_size : ℕ
  total_size_human : String
  free_size : ℕ
  free_size_human : String
  available_size : ℕ
  available_size_human : String
  used_size : ℤ
  used_size_human : String
  usage_percent : Frac
deriving DecidableEq, Repr

/-- The inode_usage sub-dictionary. -/
structure InodeUsage where
  used_inodes : ℤ
  usage_percent : Frac
deriving DecidableEq, Repr

/-- The dictionary returned by get_filesystem_stats in the statvfs
branch. -/
structure FsStatsResult where
  filesystem_stats : FsRawStats
  space_usage : SpaceUsage
  inode_usage : InodeUsage
deriving DecidableEq, Repr

/-- FileSystem.get_filesystem_stats on a statvfs sample.  fragment_size
is stats.f_frsize or stats.f_bsize, Python or picking f_bsize exactly
when f_frsize is zero; sizes multiply block counts by fragment_size;
both usage percentages divide only under a positive-denominator guard
and are the integer zero otherwise. -/
def getFilesystemStats (stats : StatVFS) : FsStatsResult :=
  let fragment_size := if stats.f_frsize ≠ 0 then stats.f_frsize else stats.f_bsize
  let total_blocks := stats.f_blocks
  let free_blocks := stats.f_bfree
  let avail_blocks := stats.f_bavail
  let total_inodes := stats.f_files
  let free_inodes := stats.f_ffree
  let avail_inodes := stats.f_favail
  let total_size := total_blocks * fragment_size
  let free_size := free_blocks * fragment_size
  let avail_size := avail_blocks * fragment_size
  let used_inodes : ℤ := (total_inodes : ℤ) - (free_inodes : ℤ)
  let inode_usage_percent : Frac :=
    if 0 < total_inodes then
      ((⟨used_inodes, 1⟩ : Frac).div (.ofInt total_inodes)).mul (.ofInt 100)
    else .ofInt 0
  { filesystem_stats :=
      { block_size := stats.f_bsize
        fragment_size := fragment_size
        total_blocks := total_blocks
        free_blocks := free_blocks
        available_blocks := avail_blocks
        total_inodes := total_inodes
        free_inodes := free_inodes
        available_inodes := avail_inodes
        filesystem_id := stats.f_fsid
        mount_flags := stats.f_flag
        maximum_filename_length := stats.f_namemax }
    space_usage :=
      { total_size := total_size
        total_size_human := humanReadableSizeD (.ofInt total_size)
        free_size := free_size
        free_size_human := humanReadableSizeD (.ofInt free_size)
        available_size := avail_size
        available_size_human := humanReadableSizeD (.ofInt avail_size)
        used_size := (total_size : ℤ) - (free_size : ℤ)
        used_size_human := humanReadableSizeD ⟨(total_size : ℤ) - (free_size : ℤ), 1⟩
        usage_percent :=
          if 0 < total_size then
            ((⟨(total_size : ℤ) - (free_size : ℤ), 1⟩ : Frac).div
                (.ofInt total_size)).mul (.ofInt 100)
          else .ofInt 0 }
    inode_usage :=
      { used_inodes := used_inodes
        usage_percent := inode_usage_percent } }

/-! FileSystem.get_file_hash (src/fscli/file_system.py lines 578-614).
The environment is modelled by: isRegularFile, the os.path.isfile test;
readResult, the full byte stream read in 4096-byte chunks (none when a
read raises); digestFn, the hashlib hex digest of a byte stream under a
given algorithm name.  Sequential chunked updates of a hashlib object
digest the concatenation of the chunks, so digestFn consumes the whole
stream. -/

/-- The keys of the hash_funcs dictionary. -/
def hashAlgs : List String := ["md5", "sha1", "sha256"]

/-- Modelled from the spec: the hashlib interface produces fixed-length
hexadecimal digests; md5, sha1 and sha256 digests have 128, 160 and 256
bits, hence 32, 40 and 64 hexadecimal characters.  hashlib itself is
outside the repository; this records its digest-length contract. -/
def hexDigestLength (hashType : String) : ℕ :=
  if hashType = "md5" then 32
  else if hashType = "sha1" then 40
  else if hashType = "sha256" then 64
  else 0

/-- The sixteen lowercase hexadecimal digit characters. -/
def hexChars : List Char := "0123456789abcdef".data

/-- FileSystem.get_file_hash: empty string when the path is not a
regular file, when the algorithm name is not a hash_funcs key, or when
reading raises; otherwise the hex digest of the file content. -/
def getFileHash (digestFn : String → List ℕ → String) (isRegularFile : Bool)
    (readResult : Option (List ℕ)) (hashType : String) : String :=
  if !isRegularFile then ""
  else if !(hashAlgs.contains hashType) then ""
  else
    match readResult with
    | none => ""
    | some bytes => digestFn hashType bytes

/-! Helper lemmas shared by the claim theorems. -/

theorem sizeLoop_step5 (size : Frac) (i : ℕ) :
    sizeLoop 5 size i =
      if Frac.intLe 1024 size ∧ i < 5 then sizeLoop 4 size.div1024 (i + 1)
      else (size, i) := rfl

theorem sizeLoop_step4 (size : Frac) (i : ℕ) :
    sizeLoop 4 size i =
      if Frac.intLe 1024 size ∧ i < 5 then sizeLoop 3 size.div1024 (i + 1)
      else (size, i) := rfl

theorem sizeLoop_step3 (size : Frac) (i : ℕ) :
    sizeLoop 3 size i =
      if Frac.intLe 1024 size ∧ i < 5 then sizeLoop 2 size.div1024 (i + 1)
      else (size, i) := rfl

theorem sizeLoop_step2 (size : Frac) (i : ℕ) :
    sizeLoop 2 size i =
      if Frac.intLe 1024 size ∧ i < 5 then sizeLoop 1 size.div1024 (i + 1)
      else (size, i) := rfl

theorem sizeLoop_step1 (size : Frac) (i : ℕ) :
    sizeLoop 1 size i =
      if Frac.intLe 1024 size ∧ i < 5 then sizeLoop 0 size.div1024 (i + 1)
      else (size, i) := rfl

theorem append_B_ne_na (s : String) : s ++ "B" ≠ "N/A" := by
  intro hEq
  have hd : s.data ++ ['B'] = ['N', '/', 'A'] := by
    have h := congrArg String.data hEq
    simpa [String.data_append] using h
  have hlast := congrArg List.getLast? hd
  rw [List.getLast?_concat] at hlast
  simp at hlast

theorem land_absorb (m a k : ℕ) (h : a &&& k = k) : m &&& a &&& k = m &&& k := by
  rw [Nat.land_assoc, h]

/-- C7: SizeFormatter.format scales by repeated division by 1024
through the units B, KB, MB, GB, TB, PB and stops at PB: format 0 is
the string 0 B with no decimal places, format 1024 is 1.00 KB, format
1536 is 1.50 KB, and every value at least 1024 ^ 5 renders with the PB
unit. -/
theorem sizeFormatter_scaling :
    humanReadableSizeD (Frac.ofInt 0) = "0 B" ∧
    humanReadableSizeD (Frac.ofInt 1024) = "1.00 KB" ∧
    humanReadableSizeD (Frac.ofInt 1536) = "1.50 KB" ∧
    ∀ n : ℤ, 1024 ^ 5 ≤ n →
      ∃ s, humanReadableSizeD (Frac.ofInt n) = s ++ " PB" := by
  refine ⟨by decide, by decide, by decide, ?_⟩
  intro n h
  norm_num at h
  have c : ∀ d : ℤ, 1024 * d ≤ 1125899906842624 → Frac.intLe 1024 (⟨n, d⟩ : Frac) := by
    intro d hd
    simp only [Frac.intLe]
    omega
  have hloop : sizeLoop 5 (Frac.ofInt n) 0 = (⟨n, 1125899906842624⟩, 5) := by
    rw [sizeLoop_step5, if_pos ⟨c 1 (by norm_num), by norm_num⟩]
    rw [sizeLoop_step4, if_pos ⟨c 1024 (by norm_num), by norm_num⟩]
    rw [sizeLoop_step3, if_pos ⟨c 1048576 (by norm_num), by norm_num⟩]
    rw [sizeLoop_step2, if_pos ⟨c 1073741824 (by norm_num), by norm_num⟩]
    rw [sizeLoop_step1, if_pos ⟨c 1099511627776 (by norm_num), by norm_num⟩]
    rfl
  have hne : ¬((Frac.ofInt n).num = 0) := by
    simp only [Frac.ofInt]
    omega
  refine ⟨formatFixed ⟨n, 1125899906842624⟩ 2, ?_⟩
  unfold humanReadableSizeD humanReadableSize
  rw [if_neg hne]
  show formatFixed (sizeLoop 5 (Frac.ofInt n) 0).1 2 ++ " " ++
      sizeUnits.getD (sizeLoop 5 (Frac.ofInt n) 0).2 "" = _
  rw [hloop]
  show formatFixed ⟨n, 1125899906842624⟩ 2 ++ " " ++ "PB" = _
  rw [String.append_assoc]
  rfl

/-- Witness for sizeFormatter_scaling at the input 1024 ^ 5. -/
theorem sizeFormatter_scaling_witness :
    ∃ s, humanReadableSizeD (Frac.ofInt (1024 ^ 5)) = s ++ " PB" :=
  sizeFormatter_scaling.2.2.2 (1024 ^ 5) (le_refl _)

/-- C6 counterexample: FileSystem._human_readable_size does not return
N/A on the negative input -1; it formats it as -1.00 B. -/
theorem sizeFormatter_na_counterexample :
    humanReadableSizeD (Frac.ofInt (-1)) = "-1.00 B" ∧
    humanReadableSizeD (Frac.ofInt (-1)) ≠ "N/A" := by
  constructor
  · decide
  · decide

/-- C6 (amended): FileSystem._human_readable_size never returns N/A:
every negative input is formatted numerically with the B unit.  The
string N/A is produced only by the renderer helper
PrettyPrinter._format_size, and only for the exact inputs None and -1;
other negative values are formatted numerically, and zero renders there
as 0.00 B (distinct from N/A). -/
theorem sizeFormatter_na_amended :
    (∀ n : ℤ, n < 0 → humanReadableSizeD (Frac.ofInt n) ≠ "N/A") ∧
    formatSize none = "N/A" ∧
    formatSize (some (Frac.ofInt (-1))) = "N/A" ∧
    formatSize (some (Frac.ofInt (-2))) = "-2.00 B" ∧
    formatSize (some (Frac.ofInt 0)) = "0.00 B" := by
  refine ⟨?_, rfl, by decide, by decide, by decide⟩
  intro n hn
  have hneg : ¬(Frac.intLe 1024 (Frac.ofInt n) ∧ (0 : ℕ) < 5) := by
    intro hc
    have h1 := hc.1
    simp only [Frac.intLe, Frac.ofInt] at h1
    omega
  have hloop : sizeLoop 5 (Frac.ofInt n) 0 = (⟨n, 1⟩, 0) := by
    rw [sizeLoop_step5, if_neg hneg]
    rfl
  have hne : ¬((Frac.ofInt n).num = 0) := by
    simp only [Frac.ofInt]
    omega
  unfold humanReadableSizeD humanReadableSize
  rw [if_neg hne]
  show formatFixed (sizeLoop 5 (Frac.ofInt n) 0).1 2 ++ " " ++
      sizeUnits.getD (sizeLoop 5 (Frac.ofInt n) 0).2 "" ≠ "N/A"
  rw [hloop]
  show (formatFixed ⟨n, 1⟩ 2 ++ " ") ++ "B" ≠ "N/A"
  exact append_B_ne_na _

/-- Witness for sizeFormatter_na_amended at the input -7. -/
theorem sizeFormatter_na_amended_witness :
    humanReadableSizeD (Frac.ofInt (-7)) ≠ "N/A" :=
  sizeFormatter_na_amended.1 (-7) (by norm_num)

/-- C4 counterexample: at the claim's own example mode 0o755 = 493, the
octal field is the Python oct rendering 0o755, not the bare 3-digit
string 755, so the field is 5 characters, not 3. -/
theorem octal_format_counterexample :
    octalPerm 0o755 = "0o755" ∧ octalPerm 0o755 ≠ "755" ∧
    (octalPerm 0o755).length ≠ 3 := by
  refine ⟨by decide, by decide, by decide⟩

set_option maxRecDepth 10000 in
theorem octDigits_val_le_three :
    ∀ m : Fin 512, octStringVal (Nat.toDigits 8 m.val) = m.val ∧
      1 ≤ (Nat.toDigits 8 m.val).length ∧ (Nat.toDigits 8 m.val).length ≤ 3 := by
  decide

/-- C4 (amended): the octal field returned for a mode is the Python oct
rendering of the mode masked to its low 9 bits: the prefix 0o followed
by the minimal (unpadded) base-8 digit string of mode mod 512, whose
numeric value is exactly mode mod 512 and whose length is between 1 and
3 digits; mode 0o755 yields the string 0o755. -/
theorem octal_format_amended (mode : ℕ) :
    octalPerm mode = "0o" ++ String.mk (Nat.toDigits 8 (mode % 512)) ∧
    octStringVal (Nat.toDigits 8 (mode % 512)) = mode % 512 ∧
    1 ≤ (Nat.toDigits 8 (mode % 512)).length ∧
    (Nat.toDigits 8 (mode % 512)).length ≤ 3 ∧
    octalPerm 0o100755 = "0o755" := by
  have hmask : mode &&& 0o777 = mode % 512 := by
    have h9 : (0o777 : ℕ) = 2 ^ 9 - 1 := by norm_num
    rw [h9, Nat.and_pow_two_sub_one_eq_mod]
  have hfin := octDigits_val_le_three ⟨mode % 512, Nat.mod_lt _ (by norm_num)⟩
  refine ⟨?_, hfin.1, hfin.2.1, hfin.2.2, by decide⟩
  show pyOct (mode &&& 0o777) = _
  rw [hmask]
  rfl

/-- Witness for octal_format_amended at mode 0o100644. -/
theorem octal_format_amended_witness :
    octalPerm 0o100644 = "0o" ++ String.mk (Nat.toDigits 8 (0o100644 % 512)) ∧
    octStringVal (Nat.toDigits 8 (0o100644 % 512)) = 0o100644 % 512 ∧
    1 ≤ (Nat.toDigits 8 (0o100644 % 512)).length ∧
    (Nat.toDigits 8 (0o100644 % 512)).length ≤ 3 ∧
    octalPerm 0o100755 = "0o755" :=
  octal_format_amended 0o100644

/-- C5: the symbolic string is ten characters, its first character is d
for a directory mode, l for a symlink mode and - otherwise, the nine
permission characters depend only on the low nine bits and the format
bits, so clearing the setuid, setgid and sticky bits (mask 0o170777)
never changes the symbolic string; decode of a regular 0o755 mode gives
-rwxr-xr-x, of 0o644 gives -rw-r--r--, and a setuid mode sets the
setuid boolean while leaving the symbolic string unchanged. -/
theorem symbolic_decode (mode : ℕ) :
    (symbolicPerm mode).length = 10 ∧
    (symbolicPerm mode).data.head? =
      some (if S_ISDIR mode then 'd' else if S_ISLNK mode then 'l' else '-') ∧
    symbolicPerm (mode &&& 0o170777) = symbolicPerm mode ∧
    symbolicPerm 0o100755 = "-rwxr-xr-x" ∧
    symbolicPerm 0o100644 = "-rw-r--r--" ∧
    (getFilePermissions 0o104755 0 0).setuid = true ∧
    symbolicPerm 0o104755 = symbolicPerm 0o100755 := by
  refine ⟨?_, ?_, ?_, by decide, by decide, by decide, by decide⟩
  · cases hd : S_ISDIR mode <;> cases hl : S_ISLNK mode <;>
      simp [symbolicPerm, hd, hl, String.length_append, apply_ite String.length,
        show ("-" : String).length = 1 from rfl,
        show ("x" : String).length = 1 from rfl,
        show ("r" : String).length = 1 from rfl,
        show ("w" : String).length = 1 from rfl,
        show ("d" : String).length = 1 from rfl,
        show ("l" : String).length = 1 from rfl]
  · cases hd : S_ISDIR mode <;> cases hl : S_ISLNK mode <;>
      simp [symbolicPerm, hd, hl, String.data_append]
  · unfold symbolicPerm S_ISDIR S_ISLNK
    rw [land_absorb mode 0o170777 0o170000 (by decide),
      land_absorb mode 0o170777 0o400 (by decide),
      land_absorb mode 0o170777 0o200 (by decide),
      land_absorb mode 0o170777 0o100 (by decide),
      land_absorb mode 0o170777 0o40 (by decide),
      land_absorb mode 0o170777 0o20 (by decide),
      land_absorb mode 0o170777 0o10 (by decide),
      land_absorb mode 0o170777 0o4 (by decide),
      land_absorb mode 0o170777 0o2 (by decide),
      land_absorb mode 0o170777 0o1 (by decide)]

/-- Witness for symbolic_decode at mode 0o100755. -/
theorem symbolic_decode_witness :
    (symbolicPerm 0o100755).length = 10 ∧
    (symbolicPerm 0o100755).data.head? =
      some (if S_ISDIR 0o100755 then 'd' else if S_ISLNK 0o100755 then 'l' else '-') ∧
    symbolicPerm (0o100755 &&& 0o170777) = symbolicPerm 0o100755 ∧
    symbolicPerm 0o100755 = "-rwxr-xr-x" ∧
    symbolicPerm 0o100644 = "-rw-r--r--" ∧
    (getFilePermissions 0o104755 0 0).setuid = true ∧
    symbolicPerm 0o104755 = symbolicPerm 0o100755 :=
  symbolic_decode 0o100755

/-- C3: for every statvfs sample, total_size is total_blocks times the
fragment size (falling back to the block size when the reported
fragment size is zero), used_size is total_size minus free_size,
used_inodes is total_inodes minus free_inodes, and each usage
percentage is the number zero, not an error, when its denominator
(total_inodes, respectively total_size) is zero. -/
theorem filesystemStats_derived (s : StatVFS) :
    (getFilesystemStats s).space_usage.total_size =
      s.f_blocks * (if s.f_frsize ≠ 0 then s.f_frsize else s.f_bsize) ∧
    (getFilesystemStats s).space_usage.used_size =
      ((getFilesystemStats s).space_usage.total_size : ℤ) -
        ((getFilesystemStats s).space_usage.free_size : ℤ) ∧
    (getFilesystemStats s).inode_usage.used_inodes =
      (s.f_files : ℤ) - (s.f_ffree : ℤ) ∧
    (s.f_files = 0 →
      (getFilesystemStats s).inode_usage.usage_percent = Frac.ofInt 0) ∧
    ((getFilesystemStats s).space_usage.total_size = 0 →
      (getFilesystemStats s).space_usage.usage_percent = Frac.ofInt 0) := by
  refine ⟨rfl, rfl, rfl, ?_, ?_⟩
  · intro h
    simp [getFilesystemStats, h]
  · intro h
    simp only [getFilesystemStats] at h ⊢
    rw [if_neg]
    omega

/-- Witness for filesystemStats_derived on a sample with zero blocks,
zero inodes and an unset fragment size. -/
theorem filesystemStats_derived_witness :
    (getFilesystemStats ⟨4096, 0, 0, 0, 0, 0, 0, 0, 42, 1, 255⟩).space_usage.total_size =
      (0 : ℕ) * (if (0 : ℕ) ≠ 0 then (0 : ℕ) else 4096) ∧
    (getFilesystemStats ⟨4096, 0, 0, 0, 0, 0, 0, 0, 42, 1, 255⟩).inode_usage.usage_percent =
      Frac.ofInt 0 ∧
    (getFilesystemStats ⟨4096, 0, 0, 0, 0, 0, 0, 0, 42, 1, 255⟩).space_usage.usage_percent =
      Frac.ofInt 0 :=
  ⟨(filesystemStats_derived ⟨4096, 0, 0, 0, 0, 0, 0, 0, 42, 1, 255⟩).1,
    (filesystemStats_derived ⟨4096, 0, 0, 0, 0, 0, 0, 0, 42, 1, 255⟩).2.2.2.1 rfl,
    (filesystemStats_derived ⟨4096, 0, 0, 0, 0, 0, 0, 0, 42, 1, 255⟩).2.2.2.2 rfl⟩

/-- C9 counterexample: on a volume whose disk_usage triple is
(0, 0, 0), get_drive_space does not return raw byte counts; the
division used / total raises ZeroDivisionError and the handler returns
the empty dictionary, the very same value returned when the probe
itself fails, so the two cases are indistinguishable. -/
theorem driveSpace_zero_counterexample :
    getDriveSpace (some ⟨0, 0, 0⟩) = none ∧
    getDriveSpace (some ⟨0, 0, 0⟩) = getDriveSpace none := by
  exact ⟨rfl, rfl⟩

/-- C9 (amended): get_drive_space returns the raw disk_usage byte
counts only for a volume with positive total capacity; a zero-capacity
volume triggers a division by zero, and the handler returns the empty
dictionary, identical to the value returned when the probe fails, so
failure is not signaled distinctly from a zero-capacity volume. -/
theorem driveSpace_zero_amended :
    getDriveSpace (some ⟨0, 0, 0⟩) = none ∧
    getDriveSpace none = none ∧
    ∀ t u f : ℕ, 0 < t →
      (getDriveSpace (some ⟨t, u, f⟩)).map (fun d => (d.total, d.used, d.free)) =
        some (t, u, f) := by
  refine ⟨rfl, rfl, ?_⟩
  intro t u f ht
  have hne : ¬(t = 0) := by omega
  simp [getDriveSpace, hne]

/-- Witness for driveSpace_zero_amended on the triple (5, 3, 2). -/
theorem driveSpace_zero_amended_witness :
    (getDriveSpace (some ⟨5, 3, 2⟩)).map (fun d => (d.total, d.used, d.free)) =
      some (5, 3, 2) :=
  driveSpace_zero_amended.2.2 5 3 2 (by decide)

/-- C1: evaluation of the mount-table parser at the failing input.  A
line with fewer than 5 whitespace fields is skipped and parsing of
later lines continues (first conjunct), but a line with exactly 5
fields passes the len(parts) >= 5 guard and the read of parts[5]
raises IndexError, which is caught only outside the loop: parsing
stops, lines collected before it are returned and every later
well-formed line is lost (second and third conjuncts), contradicting
the claim that no malformed line can abort reporting of subsequent
well-formed lines. -/
theorem mountTable_fiveField_abort :
    getDiskPartitions (fun _ => none) true
        ["a b c d", "/dev/sda1 on / type ext4 (rw)"] =
      [{ device := "/dev/sda1", mountpoint := "/", fstype := "ext4", opts := "rw",
         total_space := 0, free_space := 0, used_space := 0,
         used_percent := Frac.ofInt 0 }] ∧
    getDiskPartitions (fun _ => none) true
        ["a b c d e", "/dev/sda1 on / type ext4 (rw)"] = [] ∧
    getDiskPartitions (fun _ => none) true
        ["/dev/sda1 on / type ext4 (rw)", "a b c d e",
          "/dev/sdb1 on /mnt type ext4 (rw)"] =
      [{ device := "/dev/sda1", mountpoint := "/", fstype := "ext4", opts := "rw",
         total_space := 0, free_space := 0, used_space := 0,
         used_percent := Frac.ofInt 0 }] := by
  refine ⟨by decide, by decide, by decide⟩

theorem enumerateMounts_filter (probe : String → Option SpaceInfo)
    (lines : List String) :
    enumerateMounts probe false lines =
      (enumerateMounts probe true lines).filter
        (fun p => !(isVirtualEntry p.device p.fstype)) := by
  induction lines with
  | nil => rfl
  | cons line rest ih =>
    simp only [enumerateMounts]
    by_cases h5 : 5 ≤ (pySplit line).length
    · rw [if_pos h5, if_pos h5]
      by_cases h6 : 6 ≤ (pySplit line).length
      · rw [if_pos h6, if_pos h6]
        by_cases hv : isVirtualEntry ((pySplit line)[0]?.getD "") ((pySplit line)[4]?.getD "")
        · simp only [hv, Bool.not_false, Bool.not_true, Bool.true_and, Bool.false_and,
            if_true, if_false, Bool.and_self]
          rw [ih]
          simp [mkPartInfo, List.filter_cons, hv]
        · simp only [hv, Bool.not_false, Bool.not_true, Bool.true_and, Bool.false_and,
            if_true, if_false]
          rw [ih]
          simp [mkPartInfo, List.filter_cons, hv]
      · rw [if_neg h6, if_neg h6]
        rfl
    · rw [if_neg h5, if_neg h5]
      exact ih

/-- C2: with include_virtual unset, enumerate excludes exactly the
entries whose filesystem type is in the pseudo set proc, sysfs, devpts,
devtmpfs, tmpfs or whose device starts with none, /dev/loop or udev (a
denylist: every other entry of the include_virtual result is kept), and
the include_virtual result is a superset of the default result on the
same mount-table input. -/
theorem enumerate_denylist (probe : String → Option SpaceInfo)
    (lines : List String) :
    getDiskPartitions probe false lines =
      (getDiskPartitions probe true lines).filter
        (fun p => !(isVirtualEntry p.device p.fstype)) ∧
    ∀ p, p ∈ getDiskPartitions probe false lines →
      p ∈ getDiskPartitions probe true lines := by
  refine ⟨enumerateMounts_filter probe lines, ?_⟩
  intro p hp
  rw [getDiskPartitions, enumerateMounts_filter probe lines] at hp
  exact List.mem_of_mem_filter hp

/-- Witness for enumerate_denylist: on a two-line mount table the ext4
entry of the default enumeration is also in the include_virtual one. -/
theorem enumerate_denylist_witness :
    ({ device := "/dev/sda1", mountpoint := "/", fstype := "ext4", opts := "rw",
       total_space := 0, free_space := 0, used_space := 0,
       used_percent := Frac.ofInt 0 } : PartInfo) ∈
      getDiskPartitions (fun _ => none) true
        ["proc on /proc type proc (rw)", "/dev/sda1 on / type ext4 (rw)"] :=
  (enumerate_denylist (fun _ => none)
      ["proc on /proc type proc (rw)", "/dev/sda1 on / type ext4 (rw)"]).2
    _ (by decide)

/-- C8 counterexample: the three failure conditions of get_file_hash
(path not a regular file, unsupported algorithm, read failure) all
return the very same value, the empty string, so none of them is
signaled as its own distinguishable typed error. -/
theorem hash_error_counterexample :
    getFileHash (fun _ _ => "d41d8cd98f00b204e9800998ecf8427e") false (some []) "md5" = "" ∧
    getFileHash (fun _ _ => "d41d8cd98f00b204e9800998ecf8427e") true (some []) "sha512" = "" ∧
    getFileHash (fun _ _ => "d41d8cd98f00b204e9800998ecf8427e") true none "md5" = "" := by
  refine ⟨rfl, by decide, rfl⟩

/-- C8 (amended): get_file_hash signals each of its failure conditions
(path not a regular file, algorithm not one of md5, sha1, sha256, read
failure) by returning the same sentinel, the empty string; the
conditions are distinguished only by printed messages, not by distinct
typed error values returned to the caller. -/
theorem hash_error_amended (digestFn : String → List ℕ → String)
    (isRegularFile : Bool) (readResult : Option (List ℕ)) (hashType : String) :
    (isRegularFile = false →
      getFileHash digestFn isRegularFile readResult hashType = "") ∧
    (hashAlgs.contains hashType = false →
      getFileHash digestFn isRegularFile readResult hashType = "") ∧
    (readResult = none →
      getFileHash digestFn isRegularFile readResult hashType = "") := by
  refine ⟨?_, ?_, ?_⟩
  · intro h
    simp [getFileHash, h]
  · intro h
    have hmem : hashType ∉ hashAlgs := by simpa using h
    simp [getFileHash, hmem]
  · intro h
    by_cases hf : isRegularFile <;> by_cases ha : hashType ∈ hashAlgs <;>
      simp [getFileHash, h, hf, ha]

/-- Witness for hash_error_amended at the three concrete failures. -/
theorem hash_error_amended_witness :
    getFileHash (fun _ _ => "") false (some []) "md5" = "" ∧
    getFileHash (fun _ _ => "") true (some []) "sha512" = "" ∧
    getFileHash (fun _ _ => "") true none "md5" = "" :=
  ⟨(hash_error_amended (fun _ _ => "") false (some []) "md5").1 rfl,
    (hash_error_amended (fun _ _ => "") true (some []) "sha512").2.1 (by decide),
    (hash_error_amended (fun _ _ => "") true none "md5").2.2 rfl⟩

/-- C10: under the hashlib digest contract (each supported algorithm
yields a hex string of its fixed digest length), get_file_hash returns
exactly the empty string on every failure (non-regular-file path,
unsupported algorithm, read error), and on success returns the digest
of the content, a non-empty string of 32, 40 or 64 hexadecimal
characters; hence the failure value can never collide with a valid
digest, and as a total function the model never raises. -/
theorem hash_digest_contract (digestFn : String → List ℕ → String)
    (hc : ∀ ht bytes, ht ∈ hashAlgs →
      (digestFn ht bytes).length = hexDigestLength ht ∧
        ∀ c ∈ (digestFn ht bytes).data, c ∈ hexChars) :
    ∀ (isRegularFile : Bool) (readResult : Option (List ℕ)) (hashType : String),
      ((isRegularFile = false ∨ hashAlgs.contains hashType = false ∨
          readResult = none) →
        getFileHash digestFn isRegularFile readResult hashType = "") ∧
      (∀ bytes, isRegularFile = true → hashType ∈ hashAlgs →
        readResult = some bytes →
        getFileHash digestFn isRegularFile readResult hashType = digestFn hashType bytes ∧
        (getFileHash digestFn isRegularFile readResult hashType).length =
          hexDigestLength hashType ∧
        (hexDigestLength hashType = 32 ∨ hexDigestLength hashType = 40 ∨
          hexDigestLength hashType = 64) ∧
        getFileHash digestFn isRegularFile readResult hashType ≠ "" ∧
        (∀ c ∈ (getFileHash digestFn isRegularFile readResult hashType).data,
          c ∈ hexChars)) := by
  intro isRegularFile readResult hashType
  constructor
  · rintro (h | h | h)
    · simp [getFileHash, h]
    · have hmem : hashType ∉ hashAlgs := by simpa using h
      simp [getFileHash, hmem]
    · by_cases hf : isRegularFile <;> by_cases ha : hashType ∈ hashAlgs <;>
        simp [getFileHash, h, hf, ha]
  · intro bytes hf hm hr
    have heq : getFileHash digestFn isRegularFile readResult hashType =
        digestFn hashType bytes := by
      simp [getFileHash, hf, hm, hr]
    have hlen := (hc hashType bytes hm).1
    have hhex := (hc hashType bytes hm).2
    have hval : hexDigestLength hashType = 32 ∨ hexDigestLength hashType = 40 ∨
        hexDigestLength hashType = 64 := by
      simp only [hashAlgs, List.mem_cons, List.mem_singleton] at hm
      rcases hm with h | h | h | h
      · left; simp [hexDigestLength, h]
      · right; left; simp [hexDigestLength, h]
      · right; right; simp [hexDigestLength, h]
      · cases h
    refine ⟨heq, by rw [heq]; exact hlen, hval, ?_, by rw [heq]; exact hhex⟩
    intro hempty
    rw [heq] at hempty
    have h0 : (digestFn hashType bytes).length = 0 := by rw [hempty]; rfl
    rw [hlen] at h0
    rcases hval with h | h | h <;> omega

/-- Witness for hash_digest_contract with the constant digest function
returning the right number of the letter a. -/
theorem hash_digest_contract_witness :
    getFileHash (fun ht _ => String.mk (List.replicate (hexDigestLength ht) 'a'))
        true (some [0, 1]) "sha256" =
      (fun (ht : String) (_ : List ℕ) =>
        String.mk (List.replicate (hexDigestLength ht) 'a')) "sha256" [0, 1] ∧
    (getFileHash (fun ht _ => String.mk (List.replicate (hexDigestLength ht) 'a'))
        true (some [0, 1]) "sha256").length = hexDigestLength "sha256" ∧
    (hexDigestLength "sha256" = 32 ∨ hexDigestLength "sha256" = 40 ∨
      hexDigestLength "sha256" = 64) ∧
    getFileHash (fun ht _ => String.mk (List.replicate (hexDigestLength ht) 'a'))
        true (some [0, 1]) "sha256" ≠ "" ∧
    (∀ c ∈ (getFileHash (fun ht _ => String.mk (List.replicate (hexDigestLength ht) 'a'))
        true (some [0, 1]) "sha256").data, c ∈ hexChars) :=
  (hash_digest_contract (fun ht _ => String.mk (List.replicate (hexDigestLength ht) 'a'))
      (by
        intro ht bytes hm
        constructor
        · simp [String.length_mk]
        · intro c hcm
          have : c = 'a' := List.eq_of_mem_replicate hcm
          rw [this]
          decide)
      true (some [0, 1]) "sha256").2 [0, 1] rfl (by decide) rfl

end Fscli
